import Mathlib

/-!
Shallow embedding of the WebSocket client of `src/src/websocket.cpp`
(namespace `rtc` of the repository).  Pure parts of the code (URL parsing,
state transitions, queue draining, send validation) are translated into
executable Lean functions; the asynchronous transport callbacks are modelled
as an explicit step function on the endpoint state, one atomic step per user
operation or transport callback.
-/

namespace rtc

/-- Modelled from the spec: `Message` (message.hpp is not among the provided
sources).  Spec §3: "Message. Tagged variant {String(bytes), Binary(bytes),
Control(bytes)}." -/
inductive MessageType
  | string
  | binary
  | control
deriving DecidableEq, Repr

/-- Modelled from the spec: a message is its tag plus its byte payload. -/
structure Message where
  type : MessageType
  data : List Nat
deriving DecidableEq, Repr

/-- Modelled from the spec: `message_variant` — spec §3: "Only String and
Binary are surfaced to the user". -/
inductive MessageVariant
  | str (bytes : List Nat)
  | bin (bytes : List Nat)
deriving DecidableEq, Repr

/-- Modelled from the spec: `to_variant` (message.cpp is not among the
provided sources); it converts an application message to the user-facing
variant, preserving the payload. -/
def to_variant (m : Message) : MessageVariant :=
  match m.type with
  | MessageType.string => MessageVariant.str m.data
  | _ => MessageVariant.bin m.data

/-!
## URL matching

`WebSocket::open` matches the URL against the POSIX extended regex

  `^(([^:.@/?#]+):)?(/{0,2}((([^:@]*)(:([^@]*))?)@)?(([^:/?#]*)(:([^/?#]*))?))?([^?#]*)(\?([^#]*))?(#(.*))?`

with `std::regex_match` (whole-string match) and reads capture groups
m[2] (scheme), m[10] (hostname), m[12] (service), m[13] (path),
m[15] (query); m[17] (fragment) is never read.  Every capture is a run over
a character class that excludes its own delimiter, so the leftmost-longest
match is computed by the deterministic scans below.  Since every part of the
pattern can match the empty string, the whole pattern matches every input:
`regex_match` itself never fails.  An unmatched optional group yields the
empty string, exactly as `std::smatch` does for the code's `.empty()` tests.
-/

/-- Characters allowed in the scheme capture `[^:.@/?#]`. -/
def isSchemeChar (c : Char) : Bool :=
  c ≠ ':' && c ≠ '.' && c ≠ '@' && c ≠ '/' && c ≠ '?' && c ≠ '#'

/-- Characters allowed in the user capture `[^:@]`. -/
def isUserChar (c : Char) : Bool := c ≠ ':' && c ≠ '@'

/-- Characters allowed in the password capture `[^@]`. -/
def isPassChar (c : Char) : Bool := c ≠ '@'

/-- Characters allowed in the hostname capture `[^:/?#]`. -/
def isHostChar (c : Char) : Bool := c ≠ ':' && c ≠ '/' && c ≠ '?' && c ≠ '#'

/-- Characters allowed in the service capture `[^/?#]`. -/
def isServiceChar (c : Char) : Bool := c ≠ '/' && c ≠ '?' && c ≠ '#'

/-- Characters allowed in the path capture `[^?#]`. -/
def isPathChar (c : Char) : Bool := c ≠ '?' && c ≠ '#'

/-- Characters allowed in the query capture `[^#]`. -/
def isQueryChar (c : Char) : Bool := c ≠ '#'

/-- Group 1 `(([^:.@/?#]+):)?`: a non-empty run of scheme characters followed
by a colon; returns capture m[2] and the remaining input. -/
def matchScheme (s : List Char) : String × List Char :=
  let run := s.takeWhile isSchemeChar
  match s.dropWhile isSchemeChar with
  | ':' :: rest => if run.isEmpty then ("", s) else (String.mk run, rest)
  | _ => ("", s)

/-- `/{0,2}`: greedily drop up to two leading slashes. -/
def dropSlashes (s : List Char) : List Char :=
  match s with
  | '/' :: '/' :: rest => rest
  | '/' :: rest => rest
  | rest => rest

/-- Group 4 `((([^:@]*)(:([^@]*))?)@)?`: userinfo terminated by `@`; the
captures m[6]/m[8] are never read by the code, so only the remaining input
is returned.  The group matches exactly when the greedy user run (optionally
followed by `:` and a greedy password run) is terminated by `@`. -/
def dropUserinfo (s : List Char) : List Char :=
  match s.dropWhile isUserChar with
  | '@' :: rest => rest
  | ':' :: rest1 =>
    match rest1.dropWhile isPassChar with
    | '@' :: rest2 => rest2
    | _ => s
  | _ => s

/-- Group 9 `(([^:/?#]*)(:([^/?#]*))?)`: hostname, optionally followed by a
colon and the service; returns captures m[10], m[12] and the remaining
input (m[12] is `""` both when the optional group is absent and when it
matches the empty run — the code only tests `.empty()`). -/
def matchHostPort (s : List Char) : String × String × List Char :=
  let host := s.takeWhile isHostChar
  match s.dropWhile isHostChar with
  | ':' :: rest1 =>
    (String.mk host, String.mk (rest1.takeWhile isServiceChar),
      rest1.dropWhile isServiceChar)
  | rest => (String.mk host, "", rest)

/-- Groups 13/14/16 `([^?#]*)(\?([^#]*))?(#(.*))?`: path, query, fragment. -/
def matchPathQueryFrag (s : List Char) : String × String × String :=
  let path := s.takeWhile isPathChar
  match s.dropWhile isPathChar with
  | '?' :: rest1 =>
    let q := rest1.takeWhile isQueryChar
    match rest1.dropWhile isQueryChar with
    | '#' :: frag => (String.mk path, String.mk q, String.mk frag)
    | _ => (String.mk path, String.mk q, "")
  | '#' :: frag => (String.mk path, "", String.mk frag)
  | _ => (String.mk path, "", "")

/-- The capture groups of the URL regex that `WebSocket::open` reads
(plus the fragment group m[17], which it discards). -/
structure UrlGroups where
  m2 : String
  m10 : String
  m12 : String
  m13 : String
  m15 : String
  m17 : String
deriving DecidableEq, Repr

/-- Match a URL against the regex of `WebSocket::open` and return the
capture groups. -/
def matchUrl (url : String) : UrlGroups :=
  let (m2, r1) := matchScheme url.data
  let r3 := dropUserinfo (dropSlashes r1)
  let (m10, m12, r4) := matchHostPort r3
  let (m13, m15, m17) := matchPathQueryFrag r4
  ⟨m2, m10, m12, m13, m15, m17⟩

/-- `mHostname` post-processing of `WebSocket::open`: the two `while` loops
strip every leading `[` and every trailing `]`. -/
def stripBrackets (s : String) : String :=
  String.mk (((s.data.dropWhile (· = '[')).reverse.dropWhile (· = ']')).reverse)

/-!
## Endpoint state
-/

/-- `WebSocket::State` of websocket.hpp (spec §3): the four-state lifecycle. -/
inductive WsState
  | Closed
  | Connecting
  | Open
  | Closing
deriving DecidableEq, Repr

/-- Modelled from the spec: `WebSocket::Configuration` (websocket.hpp is not
among the provided sources); spec §3 lists its options.  Only the options
relevant to the claims are carried; `maxMessageSize` is the pass-through
tuning knob the spec mentions. -/
structure Configuration where
  disableTlsVerification : Bool := false
  protocols : List String := []
  maxMessageSize : Option Nat := none
deriving DecidableEq, Repr

/-- The constant `DEFAULT_MAX_MESSAGE_SIZE`.  Modelled from the spec:
the constant itself is defined outside the provided sources; spec §3 calls
it "an implementation-defined constant" (256 KiB in the library). -/
def DEFAULT_MAX_MESSAGE_SIZE : Nat := 262144

/-- The state of an `rtc::WebSocket` endpoint: its configuration, the parsed
URL fields, the atomic connection state, the three transport slots (a slot
is modelled by whether it holds a transport) and the receive queue
(modelled as the list of queued messages, front first). -/
structure WebSocket where
  mConfig : Configuration
  mState : WsState
  mScheme : String
  mHostname : String
  mService : String
  mHost : String
  mPath : String
  mTcpTransport : Bool
  mTlsTransport : Bool
  mWsTransport : Bool
  mRecvQueue : List Message
deriving DecidableEq, Repr

/-- A fresh endpoint, as built by the `WebSocket` constructor: state starts
`Closed`, no transports, empty queue, empty URL fields. -/
def WebSocket.init (cfg : Configuration) : WebSocket :=
  { mConfig := cfg
    mState := WsState.Closed
    mScheme := ""
    mHostname := ""
    mService := ""
    mHost := ""
    mPath := ""
    mTcpTransport := false
    mTlsTransport := false
    mWsTransport := false
    mRecvQueue := [] }

/-- The exceptions `WebSocket::open` can throw: `std::logic_error` and
`std::invalid_argument`. -/
inductive OpenError
  | logicError (msg : String)
  | invalidArgument (msg : String)
deriving DecidableEq, Repr

/-- The user-visible events fired through the endpoint's callbacks. -/
inductive UserEvent
  | onOpen
  | onClosed
  | onError (msg : String)
  | onAvailable (queueSize : Nat)
deriving DecidableEq, Repr

/-- The states a lower transport reports through its state-change callback. -/
inductive TransportState
  | connecting
  | connected
  | disconnected
  | failed
  | completed
deriving DecidableEq, Repr

/-!
## Operations
-/

/-- `WebSocket::maxMessageSize` (line 129): returns the constant, ignoring
`mConfig`. -/
def WebSocket.maxMessageSize (_w : WebSocket) : Nat := DEFAULT_MAX_MESSAGE_SIZE

/-- `WebSocket::initTcpTransport` (lines 177-222), restricted to its effect
on the endpoint state: if the slot already holds a transport it is returned
unchanged; otherwise the new transport is published into the slot; if the
state is then observed `Closed` the slot is cleared again (the function
throws "Connection is closed", caught and followed by `remoteClose()`,
which is a no-op in state `Closed`). -/
def WebSocket.initTcpTransport (w : WebSocket) : WebSocket :=
  if w.mTcpTransport then w
  else if w.mState = WsState.Closed then w
  else { w with mTcpTransport := true }

/-- `WebSocket::initTlsTransport` (lines 224-281), restricted to its effect
on the endpoint state (same shape as `initTcpTransport`). -/
def WebSocket.initTlsTransport (w : WebSocket) : WebSocket :=
  if w.mTlsTransport then w
  else if w.mState = WsState.Closed then w
  else { w with mTlsTransport := true }

/-- `WebSocket::initWsTransport` (lines 283-338), restricted to its effect
on the endpoint state (same shape as `initTcpTransport`). -/
def WebSocket.initWsTransport (w : WebSocket) : WebSocket :=
  if w.mWsTransport then w
  else if w.mState = WsState.Closed then w
  else { w with mWsTransport := true }

/-- `WebSocket::open` (lines 54-98), factored over the regex captures; the
`url` argument is only used in the error messages.  Errors carry the
endpoint state at the moment of the throw, so that partial mutation before
a throw is observable.  On success the state is `Connecting` and the TCP
transport is started. -/
def WebSocket.openFromGroups (w : WebSocket) (url : String) (g : UrlGroups) :
    Except (OpenError × WebSocket) WebSocket :=
  if w.mState ≠ WsState.Closed then
    Except.error (OpenError.logicError "WebSocket must be closed before opening", w)
  else if g.m10 = "" then
    Except.error (OpenError.invalidArgument ("Invalid WebSocket URL: " ++ url), w)
  else
    let scheme := if g.m2 = "" then "ws" else g.m2
    let w1 := { w with mScheme := scheme }
    if scheme ≠ "ws" ∧ scheme ≠ "wss" then
      Except.error (OpenError.invalidArgument ("Invalid WebSocket scheme: " ++ scheme), w1)
    else
      let w2 := { w1 with
        mHostname := stripBrackets g.m10
        mService := if g.m12 = "" then (if scheme = "ws" then "80" else "443") else g.m12
        mHost := if g.m12 = "" then g.m10 else g.m10 ++ ":" ++ g.m12
        mPath := (if g.m13 = "" then "/" else g.m13) ++
          (if g.m15 = "" then "" else "?" ++ g.m15)
        mState := WsState.Connecting }
      Except.ok w2.initTcpTransport

/-- `WebSocket::open` (lines 54-98). -/
def WebSocket.openUrl (w : WebSocket) (url : String) :
    Except (OpenError × WebSocket) WebSocket :=
  w.openFromGroups url (matchUrl url)

/-- `WebSocket::close` (lines 100-110): only from `Connecting` or `Open`
the state moves to `Closing`; if no WS transport exists it collapses
directly to `Closed` (when a WS transport exists, `transport->close()` is
invoked, which does not change the endpoint state). -/
def WebSocket.close (w : WebSocket) : WebSocket :=
  if w.mState = WsState.Connecting ∨ w.mState = WsState.Open then
    if w.mWsTransport then { w with mState := WsState.Closing }
    else { w with mState := WsState.Closed }
  else w

/-- `WebSocket::closeTransports` (lines 340-367): move to `Closed` (firing
`onClosed` exactly when the state actually was not `Closed`), then clear
all three transport slots (the transports themselves are stopped on the
thread pool; `resetCallbacks()` only clears the user callbacks and does not
touch the fields modelled here). -/
def WebSocket.closeTransports (w : WebSocket) : WebSocket × List UserEvent :=
  if w.mState ≠ WsState.Closed then
    ({ w with mState := WsState.Closed, mTcpTransport := false,
              mTlsTransport := false, mWsTransport := false },
      [UserEvent.onClosed])
  else
    ({ w with mTcpTransport := false, mTlsTransport := false,
              mWsTransport := false }, [])

/-- `WebSocket::remoteClose` (lines 112-117): a no-op when the state is
already `Closed`; otherwise `close()` followed by `closeTransports()`. -/
def WebSocket.remoteClose (w : WebSocket) : WebSocket × List UserEvent :=
  if w.mState ≠ WsState.Closed then w.close.closeTransports
  else (w, [])

/-- `WebSocket::outgoing` (lines 155-163): throws when the endpoint is not
open or the message exceeds the size limit, otherwise forwards the message
to the WS transport and returns its admission result (`wsSendResult` stands
for the value of `mWsTransport->send(message)`).  The second component is
the endpoint state after the call: the function never writes any field. -/
def WebSocket.outgoing (w : WebSocket) (wsSendResult : Bool) (m : Message) :
    Except String Bool × WebSocket :=
  (if ¬(w.mState = WsState.Open ∧ w.mWsTransport = true) then
    Except.error "WebSocket is not open"
  else if m.data.length > w.maxMessageSize then
    Except.error "Message size exceeds limit"
  else
    Except.ok wsSendResult, w)

/-- The loop of `WebSocket::receive` (lines 131-138): pop entries until a
non-Control message is found (it is popped and returned) or the queue is
empty. -/
def receiveLoop : List Message → Option Message × List Message
  | [] => (none, [])
  | m :: rest =>
    if m.type = MessageType.control then receiveLoop rest else (some m, rest)

/-- `WebSocket::receive` (lines 131-138): the loop result converted to the
user-facing variant, next to the endpoint with the drained queue. -/
def WebSocket.receive (w : WebSocket) : Option MessageVariant × WebSocket :=
  ((receiveLoop w.mRecvQueue).1.map to_variant,
    { w with mRecvQueue := (receiveLoop w.mRecvQueue).2 })

/-- The loop of `WebSocket::peek` (lines 140-149): pop Control entries only;
a non-Control message is returned and left at the head of the queue. -/
def peekLoop : List Message → Option Message × List Message
  | [] => (none, [])
  | m :: rest =>
    if m.type = MessageType.control then peekLoop rest else (some m, m :: rest)

/-- `WebSocket::peek` (lines 140-149): the loop result converted to the
user-facing variant, next to the endpoint whose queue has the Control
prefix popped. -/
def WebSocket.peek (w : WebSocket) : Option MessageVariant × WebSocket :=
  ((peekLoop w.mRecvQueue).1.map to_variant,
    { w with mRecvQueue := (peekLoop w.mRecvQueue).2 })

/-- `WebSocket::incoming` (lines 165-175): a null message triggers
`remoteClose`; String and Binary messages are enqueued and
`onAvailable(queue size)` fires; everything else is ignored. -/
def WebSocket.incoming (w : WebSocket) (msg : Option Message) :
    WebSocket × List UserEvent :=
  match msg with
  | none => w.remoteClose
  | some m =>
    if m.type = MessageType.string ∨ m.type = MessageType.binary then
      let w1 := { w with mRecvQueue := w.mRecvQueue ++ [m] }
      (w1, [UserEvent.onAvailable w1.mRecvQueue.length])
    else (w, [])

/-- The TCP state-change callback of `initTcpTransport` (lines 186-208). -/
def WebSocket.onTcpState (w : WebSocket) (s : TransportState) :
    WebSocket × List UserEvent :=
  match s with
  | TransportState.connected =>
    (if w.mScheme = "ws" then w.initWsTransport else w.initTlsTransport, [])
  | TransportState.failed =>
    ((w.remoteClose).1, UserEvent.onError "TCP connection failed" :: (w.remoteClose).2)
  | TransportState.disconnected => w.remoteClose
  | _ => (w, [])

/-- The TLS state-change callback of `initTlsTransport` (lines 233-252);
its Failed branch reuses the TCP error string. -/
def WebSocket.onTlsState (w : WebSocket) (s : TransportState) :
    WebSocket × List UserEvent :=
  match s with
  | TransportState.connected => (w.initWsTransport, [])
  | TransportState.failed =>
    ((w.remoteClose).1, UserEvent.onError "TCP connection failed" :: (w.remoteClose).2)
  | TransportState.disconnected => w.remoteClose
  | _ => (w, [])

/-- The WS state-change callback of `initWsTransport` (lines 302-325):
Connected moves `Connecting` to `Open` and fires `onOpen`, and is
suppressed in any other state. -/
def WebSocket.onWsState (w : WebSocket) (s : TransportState) :
    WebSocket × List UserEvent :=
  match s with
  | TransportState.connected =>
    if w.mState = WsState.Connecting then
      ({ w with mState := WsState.Open }, [UserEvent.onOpen])
    else (w, [])
  | TransportState.failed =>
    ((w.remoteClose).1, UserEvent.onError "WebSocket connection failed" :: (w.remoteClose).2)
  | TransportState.disconnected => w.remoteClose
  | _ => (w, [])

/-!
## The event step machine

Each user operation and each transport callback is one atomic step.  A
callback of a lower transport can only originate from the transport
currently installed in its slot, so the callback events are guarded on the
slot being non-null.
-/

/-- The events that drive the endpoint. -/
inductive Event
  | openUrl (url : String)
  | close
  | remoteClose
  | tcpState (s : TransportState)
  | tlsState (s : TransportState)
  | wsState (s : TransportState)
  | incoming (m : Option Message)
deriving DecidableEq, Repr

/-- One atomic step of the endpoint: the next state and the user events
fired during the step.  A throwing `open` leaves the endpoint in the state
carried by the error. -/
def step (w : WebSocket) (e : Event) : WebSocket × List UserEvent :=
  match e with
  | Event.openUrl url =>
    match w.openUrl url with
    | Except.ok w' => (w', [])
    | Except.error (_, w') => (w', [])
  | Event.close => (w.close, [])
  | Event.remoteClose => w.remoteClose
  | Event.tcpState s => if w.mTcpTransport then w.onTcpState s else (w, [])
  | Event.tlsState s => if w.mTlsTransport then w.onTlsState s else (w, [])
  | Event.wsState s => if w.mWsTransport then w.onWsState s else (w, [])
  | Event.incoming m => if w.mWsTransport then w.incoming m else (w, [])

/-- The endpoint states reachable from a fresh endpoint by atomic steps. -/
inductive Reachable : WebSocket → Prop
  | init (cfg : Configuration) : Reachable (WebSocket.init cfg)
  | step {w : WebSocket} (e : Event) : Reachable w → Reachable (step w e).1

/-- The invariant of spec §3 item 2: the WS transport slot is non-null
whenever the state is `Open`. -/
def OpenInv (w : WebSocket) : Prop :=
  w.mState = WsState.Open → w.mWsTransport = true

/-- A closed endpoint that has parsed a URL before: fresh endpoint, then
`open("ws://example.com/")`, then `close()` (which collapses directly to
`Closed` because no WS transport exists yet). -/
def wsClosedDemo : WebSocket :=
  (step (step (WebSocket.init {}) (Event.openUrl "ws://example.com/")).1 Event.close).1

/-- An open endpoint: fresh endpoint, `open("ws://example.com/")`,
TCP.Connected (builds the WS transport for the `ws` scheme), WS.Connected
(moves `Connecting` to `Open`). -/
def wsOpenDemo : WebSocket :=
  (step (step (step (WebSocket.init {}) (Event.openUrl "ws://example.com/")).1
    (Event.tcpState TransportState.connected)).1
    (Event.wsState TransportState.connected)).1

/-- A `wss` endpoint whose TCP and TLS transports both exist: fresh
endpoint, `open("wss://example.com/")`, TCP.Connected (builds the TLS
transport for the `wss` scheme). -/
def wssTlsDemo : WebSocket :=
  (step (step (WebSocket.init {}) (Event.openUrl "wss://example.com/")).1
    (Event.tcpState TransportState.connected)).1

/-- The endpoint produced by a successful
`open("wss://host:8443/path?x=1#frag")` on a fresh endpoint. -/
def parsedDemo : WebSocket :=
  (step (WebSocket.init {}) (Event.openUrl "wss://host:8443/path?x=1#frag")).1

/-- A message of exactly `DEFAULT_MAX_MESSAGE_SIZE` bytes. -/
def limitMsg : Message :=
  ⟨MessageType.binary, List.replicate DEFAULT_MAX_MESSAGE_SIZE 0⟩

/-- A message one byte over `DEFAULT_MAX_MESSAGE_SIZE`. -/
def overLimitMsg : Message :=
  ⟨MessageType.binary, List.replicate (DEFAULT_MAX_MESSAGE_SIZE + 1) 0⟩

/-!
## Helper lemmas
-/

theorem initTcpTransport_cases (w : WebSocket) :
    w.initTcpTransport = w ∨ w.initTcpTransport = { w with mTcpTransport := true } := by
  unfold WebSocket.initTcpTransport
  split
  · exact Or.inl rfl
  · split
    · exact Or.inl rfl
    · exact Or.inr rfl

theorem initTlsTransport_cases (w : WebSocket) :
    w.initTlsTransport = w ∨ w.initTlsTransport = { w with mTlsTransport := true } := by
  unfold WebSocket.initTlsTransport
  split
  · exact Or.inl rfl
  · split
    · exact Or.inl rfl
    · exact Or.inr rfl

theorem initWsTransport_cases (w : WebSocket) :
    w.initWsTransport = w ∨ w.initWsTransport = { w with mWsTransport := true } := by
  unfold WebSocket.initWsTransport
  split
  · exact Or.inl rfl
  · split
    · exact Or.inl rfl
    · exact Or.inr rfl

theorem initTcpTransport_mState (w : WebSocket) :
    w.initTcpTransport.mState = w.mState := by
  rcases initTcpTransport_cases w with h | h <;> rw [h]

theorem initTcpTransport_mScheme (w : WebSocket) :
    w.initTcpTransport.mScheme = w.mScheme := by
  rcases initTcpTransport_cases w with h | h <;> rw [h]

theorem initTcpTransport_mHostname (w : WebSocket) :
    w.initTcpTransport.mHostname = w.mHostname := by
  rcases initTcpTransport_cases w with h | h <;> rw [h]

theorem initTcpTransport_mService (w : WebSocket) :
    w.initTcpTransport.mService = w.mService := by
  rcases initTcpTransport_cases w with h | h <;> rw [h]

theorem initTcpTransport_mHost (w : WebSocket) :
    w.initTcpTransport.mHost = w.mHost := by
  rcases initTcpTransport_cases w with h | h <;> rw [h]

theorem initTcpTransport_mPath (w : WebSocket) :
    w.initTcpTransport.mPath = w.mPath := by
  rcases initTcpTransport_cases w with h | h <;> rw [h]

theorem initTcpTransport_mWsTransport (w : WebSocket) :
    w.initTcpTransport.mWsTransport = w.mWsTransport := by
  rcases initTcpTransport_cases w with h | h <;> rw [h]

theorem initTlsTransport_mState (w : WebSocket) :
    w.initTlsTransport.mState = w.mState := by
  rcases initTlsTransport_cases w with h | h <;> rw [h]

theorem initTlsTransport_mWsTransport (w : WebSocket) :
    w.initTlsTransport.mWsTransport = w.mWsTransport := by
  rcases initTlsTransport_cases w with h | h <;> rw [h]

theorem initWsTransport_mState (w : WebSocket) :
    w.initWsTransport.mState = w.mState := by
  rcases initWsTransport_cases w with h | h <;> rw [h]

theorem close_cases (w : WebSocket) :
    w.close = w ∨ w.close = { w with mState := WsState.Closing } ∨
      w.close = { w with mState := WsState.Closed } := by
  unfold WebSocket.close
  split
  · split
    · exact Or.inr (Or.inl rfl)
    · exact Or.inr (Or.inr rfl)
  · exact Or.inl rfl

theorem closeTransports_fst_mState (w : WebSocket) :
    (w.closeTransports).1.mState = WsState.Closed := by
  unfold WebSocket.closeTransports
  split
  · rfl
  · next h => exact not_not.mp h

theorem remoteClose_fst_mState (w : WebSocket) :
    (w.remoteClose).1.mState = WsState.Closed := by
  unfold WebSocket.remoteClose
  split
  · exact closeTransports_fst_mState _
  · next h => exact not_not.mp h

theorem openFromGroups_m17 (w : WebSocket) (url : String) (g : UrlGroups)
    (frag : String) :
    w.openFromGroups url { g with m17 := frag } = w.openFromGroups url g := by
  obtain ⟨a, b, c, d, e, f⟩ := g
  rfl

theorem openUrl_cases (w : WebSocket) (url : String) :
    (∃ w', w.openUrl url = Except.ok w' ∧ w'.mState = WsState.Connecting ∧
      w'.mWsTransport = w.mWsTransport) ∨
    (∃ er w', w.openUrl url = Except.error (er, w') ∧ w'.mState = w.mState ∧
      w'.mWsTransport = w.mWsTransport) := by
  unfold WebSocket.openUrl
  generalize matchUrl url = g
  obtain ⟨m2v, m10v, m12v, m13v, m15v, m17v⟩ := g
  by_cases hstate : w.mState = WsState.Closed
  case neg =>
    refine Or.inr ⟨OpenError.logicError "WebSocket must be closed before opening",
      w, ?_, rfl, rfl⟩
    simp [WebSocket.openFromGroups, hstate]
  case pos =>
  by_cases h10 : m10v = ""
  case pos =>
    refine Or.inr ⟨OpenError.invalidArgument ("Invalid WebSocket URL: " ++ url),
      w, ?_, rfl, rfl⟩
    simp [WebSocket.openFromGroups, hstate, h10]
  case neg =>
  by_cases h2 : m2v = ""
  case pos =>
    have hok : w.openFromGroups url ⟨m2v, m10v, m12v, m13v, m15v, m17v⟩ =
        Except.ok (WebSocket.initTcpTransport
          { w with
            mScheme := "ws"
            mHostname := stripBrackets m10v
            mService := if m12v = "" then "80" else m12v
            mHost := if m12v = "" then m10v else m10v ++ ":" ++ m12v
            mPath := (if m13v = "" then "/" else m13v) ++
              (if m15v = "" then "" else "?" ++ m15v)
            mState := WsState.Connecting }) := by
      simp [WebSocket.openFromGroups, hstate, h10, h2]
    exact Or.inl ⟨_, hok, by rw [initTcpTransport_mState],
      by rw [initTcpTransport_mWsTransport]⟩
  case neg =>
  by_cases hv : m2v = "ws" ∨ m2v = "wss"
  case pos =>
    rcases hv with hv | hv
    · have hok : w.openFromGroups url ⟨m2v, m10v, m12v, m13v, m15v, m17v⟩ =
          Except.ok (WebSocket.initTcpTransport
            { w with
              mScheme := "ws"
              mHostname := stripBrackets m10v
              mService := if m12v = "" then "80" else m12v
              mHost := if m12v = "" then m10v else m10v ++ ":" ++ m12v
              mPath := (if m13v = "" then "/" else m13v) ++
                (if m15v = "" then "" else "?" ++ m15v)
              mState := WsState.Connecting }) := by
        simp [WebSocket.openFromGroups, hstate, h10, h2, hv]
      exact Or.inl ⟨_, hok, by rw [initTcpTransport_mState],
        by rw [initTcpTransport_mWsTransport]⟩
    · have hok : w.openFromGroups url ⟨m2v, m10v, m12v, m13v, m15v, m17v⟩ =
          Except.ok (WebSocket.initTcpTransport
            { w with
              mScheme := "wss"
              mHostname := stripBrackets m10v
              mService := if m12v = "" then "443" else m12v
              mHost := if m12v = "" then m10v else m10v ++ ":" ++ m12v
              mPath := (if m13v = "" then "/" else m13v) ++
                (if m15v = "" then "" else "?" ++ m15v)
              mState := WsState.Connecting }) := by
        simp [WebSocket.openFromGroups, hstate, h10, h2, hv]
      exact Or.inl ⟨_, hok, by rw [initTcpTransport_mState],
        by rw [initTcpTransport_mWsTransport]⟩
  case neg =>
    push_neg at hv
    refine Or.inr ⟨OpenError.invalidArgument ("Invalid WebSocket scheme: " ++ m2v),
      { w with mScheme := m2v }, ?_, rfl, rfl⟩
    simp [WebSocket.openFromGroups, hstate, h10, h2, hv.1, hv.2]

theorem receiveLoop_fst (q : List Message) :
    (receiveLoop q).1 = q.find? (fun m => decide (m.type ≠ MessageType.control)) := by
  induction q with
  | nil => rfl
  | cons m rest ih =>
    by_cases h : m.type = MessageType.control <;>
      simp [receiveLoop, List.find?, h, ih]

theorem receiveLoop_snd (q : List Message) :
    (receiveLoop q).2 =
      (q.dropWhile (fun m => decide (m.type = MessageType.control))).drop 1 := by
  induction q with
  | nil => rfl
  | cons m rest ih =>
    by_cases h : m.type = MessageType.control <;>
      simp [receiveLoop, List.dropWhile, h, ih]

theorem peekLoop_snd (q : List Message) :
    (peekLoop q).2 = q.dropWhile (fun m => decide (m.type = MessageType.control)) := by
  induction q with
  | nil => rfl
  | cons m rest ih =>
    by_cases h : m.type = MessageType.control <;>
      simp [peekLoop, List.dropWhile, h, ih]

theorem peekLoop_fst (q : List Message) :
    (peekLoop q).1 = ((peekLoop q).2).head? := by
  induction q with
  | nil => rfl
  | cons m rest ih =>
    by_cases h : m.type = MessageType.control <;> simp [peekLoop, h, ih]

theorem receiveLoop_peekLoop (q : List Message) :
    receiveLoop (peekLoop q).2 = ((peekLoop q).1, ((peekLoop q).2).drop 1) := by
  induction q with
  | nil => rfl
  | cons m rest ih =>
    by_cases h : m.type = MessageType.control <;> simp [peekLoop, receiveLoop, h, ih]

/-!
## Claim theorems
-/

/-- C2: `close()` changes the state only from `Connecting` or `Open`: there
it moves the state to `Closing`, and collapses it directly to `Closed` when
no WS transport exists; called in `Closed` or `Closing` it leaves the
endpoint unchanged. -/
theorem close_state_spec (w : WebSocket) :
    ((w.mState = WsState.Closed ∨ w.mState = WsState.Closing) → w.close = w) ∧
    ((w.mState = WsState.Connecting ∨ w.mState = WsState.Open) →
      (w.mWsTransport = true → w.close = { w with mState := WsState.Closing }) ∧
      (w.mWsTransport = false → w.close = { w with mState := WsState.Closed })) := by
  unfold WebSocket.close
  constructor
  · rintro (h | h) <;> simp [h]
  · rintro (h | h) <;> exact ⟨fun hw => by simp [h, hw], fun hw => by simp [h, hw]⟩

/-- C2 witness: on the demo endpoint in state `Connecting` with no WS
transport, `close()` collapses the state directly to `Closed`. -/
theorem close_state_spec_witness :
    (step (WebSocket.init {}) (Event.openUrl "ws://example.com/")).1.close =
      { (step (WebSocket.init {}) (Event.openUrl "ws://example.com/")).1 with
          mState := WsState.Closed } :=
  ((close_state_spec (step (WebSocket.init {}) (Event.openUrl "ws://example.com/")).1).2
    (Or.inl (by decide))).2 (by decide)

/-- C9: `remoteClose()` is idempotent: in state `Closed` it is a no-op
(state and transport slots unchanged, nothing fired), and a second call
leaves the endpoint exactly where the first one left it. -/
theorem remoteClose_idempotent (w : WebSocket) :
    (w.mState = WsState.Closed → w.remoteClose = (w, [])) ∧
    ((w.remoteClose).1.remoteClose).1 = (w.remoteClose).1 := by
  constructor
  · intro h
    unfold WebSocket.remoteClose
    simp [h]
  · have hu : (w.remoteClose).1.mState = WsState.Closed := remoteClose_fst_mState w
    generalize (w.remoteClose).1 = u at hu ⊢
    unfold WebSocket.remoteClose
    simp [hu]

/-- C9 witness: on the demo endpoint that is already `Closed`,
`remoteClose()` is a literal no-op. -/
theorem remoteClose_idempotent_witness :
    wsClosedDemo.remoteClose = (wsClosedDemo, []) :=
  (remoteClose_idempotent wsClosedDemo).1 (by decide)

/-- C8: a `Failed` report from the TCP transport and a `Failed` report from
the TLS transport fire the same user error string "TCP connection failed",
and both are followed by the full teardown performed by `remoteClose()`. -/
theorem transport_failed_error (w : WebSocket)
    (htcp : w.mTcpTransport = true) (htls : w.mTlsTransport = true) :
    step w (Event.tcpState TransportState.failed) =
      ((w.remoteClose).1, UserEvent.onError "TCP connection failed" :: (w.remoteClose).2) ∧
    step w (Event.tlsState TransportState.failed) =
      ((w.remoteClose).1, UserEvent.onError "TCP connection failed" :: (w.remoteClose).2) := by
  unfold step WebSocket.onTcpState WebSocket.onTlsState
  rw [htcp, htls]
  constructor <;> rfl

/-- C8 witness: on the demo `wss` endpoint holding both a TCP and a TLS
transport, TCP.Failed fires "TCP connection failed" and tears down. -/
theorem transport_failed_error_witness :
    step wssTlsDemo (Event.tcpState TransportState.failed) =
      ((wssTlsDemo.remoteClose).1,
        UserEvent.onError "TCP connection failed" :: (wssTlsDemo.remoteClose).2) :=
  (transport_failed_error wssTlsDemo (by decide) (by decide)).1

/-- C4: `receive()` pops entries until a non-Control message is found or
the queue is empty: it returns (the user-facing variant of) the first
non-Control message of the queue if one exists and none otherwise, the
popped prefix is exactly the leading Control run plus the returned message,
and the returned message is never a Control message. -/
theorem receive_first_application (w : WebSocket) :
    (w.receive).1 =
      ((w.mRecvQueue.find? fun m => decide (m.type ≠ MessageType.control)).map to_variant) ∧
    (w.receive).2.mRecvQueue =
      ((w.mRecvQueue.dropWhile fun m => decide (m.type = MessageType.control)).drop 1) ∧
    (∀ m, (receiveLoop w.mRecvQueue).1 = some m → m.type ≠ MessageType.control) := by
  refine ⟨?_, ?_, ?_⟩
  · unfold WebSocket.receive
    rw [receiveLoop_fst]
  · unfold WebSocket.receive
    rw [receiveLoop_snd]
  · intro m hm
    rw [receiveLoop_fst] at hm
    simpa using List.find?_some hm

/-- C4 witness: a queue holding a Control entry then a String entry yields
the String entry. -/
theorem receive_first_application_witness :
    (({ wsOpenDemo with
        mRecvQueue := [⟨MessageType.control, [1]⟩, ⟨MessageType.string, [2]⟩] }).receive).1 =
      ((([⟨MessageType.control, [1]⟩, ⟨MessageType.string, [2]⟩] :
          List Message).find? fun m => decide (m.type ≠ MessageType.control)).map to_variant) :=
  (receive_first_application { wsOpenDemo with
    mRecvQueue := [⟨MessageType.control, [1]⟩, ⟨MessageType.string, [2]⟩] }).1

/-- C5: `peek()` pops only the leading Control entries, returns (the
user-facing variant of) the first application message while leaving that
very message at the head of the queue, so a subsequent `receive()` returns
the same message with the same content. -/
theorem peek_leaves_head (w : WebSocket) :
    (w.peek).2.mRecvQueue =
      (w.mRecvQueue.dropWhile fun m => decide (m.type = MessageType.control)) ∧
    (w.peek).1 = ((w.peek).2.mRecvQueue.head?).map to_variant ∧
    ((w.peek).2.receive).1 = (w.peek).1 := by
  refine ⟨?_, ?_, ?_⟩
  · unfold WebSocket.peek
    rw [peekLoop_snd]
  · unfold WebSocket.peek
    rw [peekLoop_fst]
  · unfold WebSocket.peek WebSocket.receive
    rw [receiveLoop_peekLoop]

/-- C5 witness: with a Control entry in front of a Binary entry, `peek()`
returns the Binary message and leaves it at the head. -/
theorem peek_leaves_head_witness :
    (({ wsOpenDemo with
        mRecvQueue := [⟨MessageType.control, [1]⟩, ⟨MessageType.binary, [2]⟩] }).peek).2.mRecvQueue =
      (([⟨MessageType.control, [1]⟩, ⟨MessageType.binary, [2]⟩] :
        List Message).dropWhile fun m => decide (m.type = MessageType.control)) :=
  (peek_leaves_head { wsOpenDemo with
    mRecvQueue := [⟨MessageType.control, [1]⟩, ⟨MessageType.binary, [2]⟩] }).1

/-- C3: `send(data)` throws "WebSocket is not open" whenever the state is
not `Open`, throws "Message size exceeds limit" when the state is `Open`
and the payload exceeds `maxMessageSize()`, leaves the endpoint state
unchanged in both error cases, and otherwise forwards the message to the WS
layer and returns that layer's admission result.  The hypothesis `hinv` is
the invariant that an `Open` endpoint holds a WS transport, which holds in
every reachable state. -/
theorem outgoing_spec (w : WebSocket) (res : Bool) (m : Message)
    (hinv : w.mState = WsState.Open → w.mWsTransport = true) :
    (w.mState ≠ WsState.Open →
      (w.outgoing res m).1 = Except.error "WebSocket is not open") ∧
    (w.mState = WsState.Open → m.data.length > w.maxMessageSize →
      (w.outgoing res m).1 = Except.error "Message size exceeds limit") ∧
    (w.mState = WsState.Open → m.data.length ≤ w.maxMessageSize →
      (w.outgoing res m).1 = Except.ok res) ∧
    (w.outgoing res m).2 = w := by
  refine ⟨?_, ?_, ?_, rfl⟩
  · intro h
    unfold WebSocket.outgoing
    simp [h]
  · intro h hlen
    unfold WebSocket.outgoing
    simp [h, hinv h, hlen]
  · intro h hlen
    unfold WebSocket.outgoing
    simp [h, hinv h, Nat.not_lt.mpr hlen]

/-- C3 witness: on the demo `Open` endpoint an empty Binary message is
forwarded and the WS layer's admission result is returned. -/
theorem outgoing_spec_witness :
    (wsOpenDemo.outgoing true ⟨MessageType.binary, []⟩).1 = Except.ok true :=
  (outgoing_spec wsOpenDemo true ⟨MessageType.binary, []⟩ (by decide)).2.2.1
    (by decide) (by decide)

/-- C10: `maxMessageSize()` returns the constant
`DEFAULT_MAX_MESSAGE_SIZE` for every endpoint, whatever `maxMessageSize`
the `Configuration` carries; the limit enforced by `send` is therefore
always this constant, a message of exactly the limit is admitted, and only
a strictly larger one is rejected. -/
theorem maxMessageSize_default (w : WebSocket) (cfg : Configuration) (res : Bool)
    (mAt mOver : Message)
    (hst : w.mState = WsState.Open) (hws : w.mWsTransport = true)
    (hAt : mAt.data.length = DEFAULT_MAX_MESSAGE_SIZE)
    (hOver : mOver.data.length = DEFAULT_MAX_MESSAGE_SIZE + 1) :
    w.maxMessageSize = DEFAULT_MAX_MESSAGE_SIZE ∧
    ({ w with mConfig := cfg }).maxMessageSize = DEFAULT_MAX_MESSAGE_SIZE ∧
    (w.outgoing res mAt).1 = Except.ok res ∧
    (w.outgoing res mOver).1 = Except.error "Message size exceeds limit" := by
  refine ⟨rfl, rfl, ?_, ?_⟩
  · unfold WebSocket.outgoing
    simp [hst, hws, WebSocket.maxMessageSize, hAt]
  · unfold WebSocket.outgoing
    simp [hst, hws, WebSocket.maxMessageSize, hOver]

/-- C10 witness: on the demo `Open` endpoint, a message of exactly
`DEFAULT_MAX_MESSAGE_SIZE` bytes is admitted and one of
`DEFAULT_MAX_MESSAGE_SIZE + 1` bytes is rejected. -/
theorem maxMessageSize_default_witness :
    (wsOpenDemo.outgoing true limitMsg).1 = Except.ok true ∧
    (wsOpenDemo.outgoing true overLimitMsg).1 = Except.error "Message size exceeds limit" :=
  have h := maxMessageSize_default wsOpenDemo {} true limitMsg overLimitMsg
    (by decide) (by decide) (by simp [limitMsg]) (by simp [overLimitMsg])
  ⟨h.2.2.1, h.2.2.2⟩

/-- C1: for every URL accepted by `open()`, the parsed fields satisfy: the
scheme defaults to "ws" when the URL has none and is always "ws" or "wss";
the service defaults to "80" (ws) / "443" (wss) when the URL gives no
explicit port; the canonical host is "hostname:service" (with the hostname
as matched in the URL, before bracket stripping) exactly when an explicit
port was given and the bare hostname otherwise; surrounding brackets are
stripped from the stored hostname; the path defaults to "/" when empty and
a non-empty query is appended as "?query"; the fragment capture is
discarded (the result does not depend on it). -/
theorem openUrl_parsed_fields (w : WebSocket) (url : String) (w' : WebSocket)
    (h : w.openUrl url = Except.ok w') :
    (w'.mScheme = "ws" ∨ w'.mScheme = "wss") ∧
    ((matchUrl url).m2 = "" → w'.mScheme = "ws") ∧
    ((matchUrl url).m2 ≠ "" → w'.mScheme = (matchUrl url).m2) ∧
    ((matchUrl url).m12 = "" →
      w'.mService = (if w'.mScheme = "ws" then "80" else "443") ∧
      w'.mHost = (matchUrl url).m10) ∧
    ((matchUrl url).m12 ≠ "" →
      w'.mService = (matchUrl url).m12 ∧
      w'.mHost = (matchUrl url).m10 ++ ":" ++ (matchUrl url).m12) ∧
    w'.mHostname = stripBrackets (matchUrl url).m10 ∧
    w'.mPath = (if (matchUrl url).m13 = "" then "/" else (matchUrl url).m13) ++
      (if (matchUrl url).m15 = "" then "" else "?" ++ (matchUrl url).m15) ∧
    (∀ frag, w.openFromGroups url { matchUrl url with m17 := frag } = Except.ok w') := by
  unfold WebSocket.openUrl at h
  revert h
  generalize matchUrl url = g
  obtain ⟨m2v, m10v, m12v, m13v, m15v, m17v⟩ := g
  intro h
  have horig := h
  by_cases hstate : w.mState = WsState.Closed
  case neg => simp [WebSocket.openFromGroups, hstate] at h
  by_cases h10 : m10v = ""
  case pos => simp [WebSocket.openFromGroups, hstate, h10] at h
  by_cases h2 : m2v = ""
  case pos =>
    simp [WebSocket.openFromGroups, hstate, h10, h2] at h
    subst h
    refine ⟨?_, ?_, ?_, ?_, ?_, ?_, ?_, ?_⟩
    · simp [initTcpTransport_mScheme]
    · intro hc
      simp [initTcpTransport_mScheme]
    · intro hc
      exact absurd h2 hc
    · intro h12
      simp only [UrlGroups.m12] at h12
      simp [initTcpTransport_mService, initTcpTransport_mHost,
        initTcpTransport_mScheme, h12]
    · intro h12
      simp [initTcpTransport_mService, initTcpTransport_mHost, h12]
    · simp [initTcpTransport_mHostname]
    · simp [initTcpTransport_mPath]
    · intro frag
      rw [openFromGroups_m17]
      exact horig
  case neg =>
    by_cases hv : m2v = "ws" ∨ m2v = "wss"
    case neg =>
      push_neg at hv
      simp [WebSocket.openFromGroups, hstate, h10, h2, hv.1, hv.2] at h
    case pos =>
      rcases hv with hv | hv <;>
        [simp [WebSocket.openFromGroups, hstate, h10, h2, hv] at h;
         simp [WebSocket.openFromGroups, hstate, h10, h2, hv] at h] <;>
      subst h <;>
      refine ⟨?_, ?_, ?_, ?_, ?_, ?_, ?_, ?_⟩
      · simp [initTcpTransport_mScheme]
      · intro hc
        exact absurd hc h2
      · intro hc
        simp [initTcpTransport_mScheme, hv]
      · intro h12
        simp only [UrlGroups.m12] at h12
        simp [initTcpTransport_mService, initTcpTransport_mHost,
          initTcpTransport_mScheme, h12]
      · intro h12
        simp [initTcpTransport_mService, initTcpTransport_mHost, h12]
      · simp [initTcpTransport_mHostname]
      · simp [initTcpTransport_mPath]
      · intro frag
        rw [openFromGroups_m17]
        exact horig
      · simp [initTcpTransport_mScheme]
      · intro hc
        exact absurd hc h2
      · intro hc
        simp [initTcpTransport_mScheme, hv]
      · intro h12
        simp only [UrlGroups.m12] at h12
        simp [initTcpTransport_mService, initTcpTransport_mHost,
          initTcpTransport_mScheme, h12]
      · intro h12
        simp [initTcpTransport_mService, initTcpTransport_mHost, h12]
      · simp [initTcpTransport_mHostname]
      · simp [initTcpTransport_mPath]
      · intro frag
        rw [openFromGroups_m17]
        exact horig

/-- C1 witness: parsing "wss://host:8443/path?x=1#frag" on a fresh endpoint
takes the explicit-port branch: the service is the matched port and the
canonical host is "hostname:port". -/
theorem openUrl_parsed_fields_witness :
    parsedDemo.mService = (matchUrl "wss://host:8443/path?x=1#frag").m12 ∧
    parsedDemo.mHost = (matchUrl "wss://host:8443/path?x=1#frag").m10 ++ ":" ++
      (matchUrl "wss://host:8443/path?x=1#frag").m12 :=
  (openUrl_parsed_fields (WebSocket.init {}) "wss://host:8443/path?x=1#frag"
    parsedDemo rfl).2.2.2.2.1 (by decide)

/-- C6 counterexample: on a closed endpoint that had previously parsed
"ws://example.com/" (so `mScheme = "ws"`), `open("http://x/")` throws
`InvalidArgument` as the claim says, but the endpoint is not unchanged:
`mScheme` has already been overwritten with the rejected scheme "http"
(line 70 of websocket.cpp runs before the throw at line 74). -/
theorem openUrl_scheme_overwrite :
    wsClosedDemo.mState = WsState.Closed ∧
    wsClosedDemo.mScheme = "ws" ∧
    wsClosedDemo.openUrl "http://x/" =
      Except.error (OpenError.invalidArgument "Invalid WebSocket scheme: http",
        { wsClosedDemo with mScheme := "http" }) ∧
    ({ wsClosedDemo with mScheme := "http" } : WebSocket) ≠ wsClosedDemo := by
  refine ⟨by decide, by decide, rfl, by decide⟩

/-- C6 (amended): `open(url)` throws a `LogicError` exactly when the state
is not `Closed`; in state `Closed` it throws an `InvalidArgument` exactly
when the URL has no host or a scheme other than ws/wss; every error is
raised synchronously, `mState` is never changed by a throwing call, and
the URL fields are unchanged too — except that the invalid-scheme throw
happens after `mScheme` has been overwritten with the rejected scheme. -/
theorem openUrl_error_spec (w : WebSocket) (url : String) :
    ((∃ msg w', w.openUrl url = Except.error (OpenError.logicError msg, w')) ↔
      w.mState ≠ WsState.Closed) ∧
    (w.mState = WsState.Closed →
      ((∃ msg w', w.openUrl url = Except.error (OpenError.invalidArgument msg, w')) ↔
        ((matchUrl url).m10 = "" ∨
          ((matchUrl url).m2 ≠ "" ∧ (matchUrl url).m2 ≠ "ws" ∧
            (matchUrl url).m2 ≠ "wss")))) ∧
    (∀ e w', w.openUrl url = Except.error (e, w') →
      w'.mState = w.mState ∧
      (w' = w ∨
        (e = OpenError.invalidArgument
            ("Invalid WebSocket scheme: " ++ (matchUrl url).m2) ∧
          w' = { w with mScheme := (matchUrl url).m2 }))) := by
  unfold WebSocket.openUrl
  generalize matchUrl url = g
  obtain ⟨m2v, m10v, m12v, m13v, m15v, m17v⟩ := g
  by_cases hstate : w.mState = WsState.Closed
  case neg =>
    refine ⟨?_, ?_, ?_⟩
    · simp [WebSocket.openFromGroups, hstate]
    · intro hc
      exact absurd hc hstate
    · intro e w' h
      simp [WebSocket.openFromGroups, hstate] at h
      simp [h.2.symm, h.1]
  case pos =>
  by_cases h10 : m10v = ""
  case pos =>
    refine ⟨?_, ?_, ?_⟩
    · simp [WebSocket.openFromGroups, hstate, h10]
    · intro hc
      simp [WebSocket.openFromGroups, hstate, h10]
    · intro e w' h
      simp [WebSocket.openFromGroups, hstate, h10] at h
      simp [h.2.symm, h.1]
  case neg =>
  by_cases h2 : m2v = ""
  case pos =>
    refine ⟨?_, ?_, ?_⟩
    · simp [WebSocket.openFromGroups, hstate, h10, h2]
    · intro hc
      simp [WebSocket.openFromGroups, hstate, h10, h2]
    · intro e w' h
      simp [WebSocket.openFromGroups, hstate, h10, h2] at h
  case neg =>
  by_cases hv : m2v = "ws" ∨ m2v = "wss"
  case pos =>
    rcases hv with hv | hv <;>
      refine ⟨?_, ?_, ?_⟩ <;>
      simp [WebSocket.openFromGroups, hstate, h10, h2, hv]
  case neg =>
    push_neg at hv
    refine ⟨?_, ?_, ?_⟩
    · simp [WebSocket.openFromGroups, hstate, h10, h2, hv.1, hv.2]
    · intro hc
      simp [WebSocket.openFromGroups, hstate, h10, h2, hv.1, hv.2]
    · intro e w' h
      simp [WebSocket.openFromGroups, hstate, h10, h2, hv.1, hv.2] at h
      simp [h.1, h.2.symm, hstate]

/-- C6 (amended) witness: on the fresh endpoint, `open("ws://")` (no host)
throws an `InvalidArgument` synchronously. -/
theorem openUrl_error_spec_witness :
    ∃ msg w', (WebSocket.init {}).openUrl "ws://" =
      Except.error (OpenError.invalidArgument msg, w') :=
  ((openUrl_error_spec (WebSocket.init {}) "ws://").2.1 (by decide)).mpr
    (Or.inl (by decide))


theorem step_preserves_openInv (w : WebSocket) (e : Event) (h : OpenInv w) :
    OpenInv (step w e).1 := by
  cases e with
  | openUrl url =>
    rcases openUrl_cases w url with ⟨w', hok, hst, hws⟩ | ⟨er, w', herr, hst, hws⟩
    · simp only [step, hok]
      intro hopen
      rw [hst] at hopen
      exact absurd hopen (by decide)
    · simp only [step, herr]
      intro hopen
      rw [hst] at hopen
      rw [hws]
      exact h hopen
  | close =>
    simp only [step]
    rcases close_cases w with hc | hc | hc <;> rw [hc]
    · exact h
    · intro hopen
      simp at hopen
    · intro hopen
      simp at hopen
  | remoteClose =>
    simp only [step]
    intro hopen
    rw [remoteClose_fst_mState] at hopen
    exact absurd hopen (by decide)
  | tcpState s =>
    simp only [step]
    split
    case isFalse => exact h
    case isTrue hguard =>
      cases s with
      | connected =>
        simp only [WebSocket.onTcpState]
        split
        · rcases initWsTransport_cases w with hc | hc <;> rw [hc]
          · exact h
          · intro _
            rfl
        · rcases initTlsTransport_cases w with hc | hc <;> rw [hc]
          · exact h
          · intro hopen
            exact h hopen
      | failed =>
        intro hopen
        rw [show (w.onTcpState TransportState.failed).1 = (w.remoteClose).1 from rfl,
          remoteClose_fst_mState] at hopen
        exact absurd hopen (by decide)
      | disconnected =>
        intro hopen
        rw [show (w.onTcpState TransportState.disconnected).1 = (w.remoteClose).1 from rfl,
          remoteClose_fst_mState] at hopen
        exact absurd hopen (by decide)
      | connecting => exact h
      | completed => exact h
  | tlsState s =>
    simp only [step]
    split
    case isFalse => exact h
    case isTrue hguard =>
      cases s with
      | connected =>
        simp only [WebSocket.onTlsState]
        rcases initWsTransport_cases w with hc | hc <;> rw [hc]
        · exact h
        · intro _
          rfl
      | failed =>
        intro hopen
        rw [show (w.onTlsState TransportState.failed).1 = (w.remoteClose).1 from rfl,
          remoteClose_fst_mState] at hopen
        exact absurd hopen (by decide)
      | disconnected =>
        intro hopen
        rw [show (w.onTlsState TransportState.disconnected).1 = (w.remoteClose).1 from rfl,
          remoteClose_fst_mState] at hopen
        exact absurd hopen (by decide)
      | connecting => exact h
      | completed => exact h
  | wsState s =>
    simp only [step]
    split
    case isFalse => exact h
    case isTrue hguard =>
      cases s with
      | connected =>
        simp only [WebSocket.onWsState]
        split
        · intro _
          exact hguard
        · exact h
      | failed =>
        intro hopen
        rw [show (w.onWsState TransportState.failed).1 = (w.remoteClose).1 from rfl,
          remoteClose_fst_mState] at hopen
        exact absurd hopen (by decide)
      | disconnected =>
        intro hopen
        rw [show (w.onWsState TransportState.disconnected).1 = (w.remoteClose).1 from rfl,
          remoteClose_fst_mState] at hopen
        exact absurd hopen (by decide)
      | connecting => exact h
      | completed => exact h
  | incoming m =>
    simp only [step]
    split
    case isFalse => exact h
    case isTrue hguard =>
      cases m with
      | none =>
        simp only [WebSocket.incoming]
        intro hopen
        rw [remoteClose_fst_mState] at hopen
        exact absurd hopen (by decide)
      | some msg =>
        simp only [WebSocket.incoming]
        split
        · intro hopen
          exact h hopen
        · exact h

theorem becomes_open_only (w : WebSocket) (e : Event)
    (hno : w.mState ≠ WsState.Open)
    (hopen : (step w e).1.mState = WsState.Open) :
    e = Event.wsState TransportState.connected ∧
      w.mState = WsState.Connecting := by
  cases e with
  | openUrl url =>
    exfalso
    rcases openUrl_cases w url with ⟨w', hok, hst, _⟩ | ⟨er, w', herr, hst, _⟩
    · simp only [step, hok] at hopen
      rw [hst] at hopen
      exact absurd hopen (by decide)
    · simp only [step, herr] at hopen
      rw [hst] at hopen
      exact hno hopen
  | close =>
    exfalso
    simp only [step] at hopen
    rcases close_cases w with hc | hc | hc <;> rw [hc] at hopen
    · exact hno hopen
    · simp at hopen
    · simp at hopen
  | remoteClose =>
    exfalso
    simp only [step] at hopen
    rw [remoteClose_fst_mState] at hopen
    exact absurd hopen (by decide)
  | tcpState s =>
    exfalso
    simp only [step] at hopen
    split at hopen
    case isFalse => exact hno hopen
    case isTrue hguard =>
      cases s with
      | connected =>
        simp only [WebSocket.onTcpState] at hopen
        split at hopen
        · rw [initWsTransport_mState] at hopen
          exact hno hopen
        · rw [initTlsTransport_mState] at hopen
          exact hno hopen
      | failed =>
        rw [show (w.onTcpState TransportState.failed).1 = (w.remoteClose).1 from rfl,
          remoteClose_fst_mState] at hopen
        exact absurd hopen (by decide)
      | disconnected =>
        rw [show (w.onTcpState TransportState.disconnected).1 = (w.remoteClose).1 from rfl,
          remoteClose_fst_mState] at hopen
        exact absurd hopen (by decide)
      | connecting => exact hno hopen
      | completed => exact hno hopen
  | tlsState s =>
    exfalso
    simp only [step] at hopen
    split at hopen
    case isFalse => exact hno hopen
    case isTrue hguard =>
      cases s with
      | connected =>
        simp only [WebSocket.onTlsState] at hopen
        rw [initWsTransport_mState] at hopen
        exact hno hopen
      | failed =>
        rw [show (w.onTlsState TransportState.failed).1 = (w.remoteClose).1 from rfl,
          remoteClose_fst_mState] at hopen
        exact absurd hopen (by decide)
      | disconnected =>
        rw [show (w.onTlsState TransportState.disconnected).1 = (w.remoteClose).1 from rfl,
          remoteClose_fst_mState] at hopen
        exact absurd hopen (by decide)
      | connecting => exact hno hopen
      | completed => exact hno hopen
  | wsState s =>
    simp only [step] at hopen
    split at hopen
    case isFalse => exact absurd hopen hno
    case isTrue hguard =>
      cases s with
      | connected =>
        simp only [WebSocket.onWsState] at hopen
        split at hopen
        case isTrue hconn => exact ⟨rfl, hconn⟩
        case isFalse hconn => exact absurd hopen hno
      | failed =>
        exfalso
        rw [show (w.onWsState TransportState.failed).1 = (w.remoteClose).1 from rfl,
          remoteClose_fst_mState] at hopen
        exact absurd hopen (by decide)
      | disconnected =>
        exfalso
        rw [show (w.onWsState TransportState.disconnected).1 = (w.remoteClose).1 from rfl,
          remoteClose_fst_mState] at hopen
        exact absurd hopen (by decide)
      | connecting => exact absurd hopen hno
      | completed => exact absurd hopen hno
  | incoming m =>
    exfalso
    simp only [step] at hopen
    split at hopen
    case isFalse => exact hno hopen
    case isTrue hguard =>
      cases m with
      | none =>
        simp only [WebSocket.incoming] at hopen
        rw [remoteClose_fst_mState] at hopen
        exact absurd hopen (by decide)
      | some msg =>
        simp only [WebSocket.incoming] at hopen
        split at hopen
        · exact hno hopen
        · exact hno hopen

/-- C7: in every reachable endpoint state, the WS transport slot is
non-null whenever the state is `Open`; and a step turns a non-`Open` state
into `Open` only on the WS.Connected callback and only when the state at
that moment is `Connecting`. -/
theorem open_state_invariant (w : WebSocket) (h : Reachable w) :
    (w.mState = WsState.Open → w.mWsTransport = true) ∧
    (∀ e, w.mState ≠ WsState.Open → (step w e).1.mState = WsState.Open →
      e = Event.wsState TransportState.connected ∧
        w.mState = WsState.Connecting) := by
  constructor
  · show OpenInv w
    induction h with
    | init cfg =>
      intro hopen
      simp [WebSocket.init] at hopen
    | step e _ ih => exact step_preserves_openInv _ e ih
  · intro e hno hopen
    exact becomes_open_only w e hno hopen

/-- C7 witness: the demo endpoint brought to `Open` through
open → TCP.Connected → WS.Connected is reachable, and the theorem yields
that its WS transport slot is non-null. -/
theorem open_state_invariant_witness : wsOpenDemo.mWsTransport = true := by
  have hr : Reachable wsOpenDemo :=
    Reachable.step (Event.wsState TransportState.connected)
      (Reachable.step (Event.tcpState TransportState.connected)
        (Reachable.step (Event.openUrl "ws://example.com/")
          (Reachable.init {})))
  exact (open_state_invariant wsOpenDemo hr).1 (by decide)

end rtc
